import Mathlib

/-!
# Verification of the NetSuite MCP query-translation core

A shallow embedding of the query-formatting and parameter-translation
engine of the `netsuite-mcp` repository: the operator translator, the
textual (SuiteQL) and structured (SuiteScript search) query compilers,
the result normalizers, the paged fetch loop and the account hierarchy
resolver, together with theorems settling the specification's claims
about them.

Conventions of the embedding:
* TypeScript string-union values (`'sql' | 'script'`, data-type names,
  operator names) are embedded as plain `String`s, matched by equality,
  exactly as the source matches them.
* JavaScript runtime values flowing through rows are embedded as the
  inductive `JSValue`.  `null` and `undefined` behave identically in
  every code path embedded here (both fail `!== null && !== undefined`,
  both are falsy), so a single constructor `vnull` stands for both.
* Fallible code is embedded in `Except JSError …`: `JSError.typeErr`
  models a JavaScript `TypeError` (reading a property of `undefined`),
  `JSError.cf e` models a thrown `CFError`.
* The date-formatting library calls (`DateUtil.ISOToFormat`,
  `DateUtil.FormatToISO`) are external to the compiler logic; the
  embedded functions are parameterized over them (`dateFmt`), exactly
  as the compiler is generic in the library's behaviour.
-/

namespace NetSuiteMCP

/-- A thrown `CFError` from `Models/CFError.ts`: a kind tag and message. -/
structure CFError where
  kind : String
  msg : String
deriving Repr, DecidableEq

/-- A JavaScript runtime failure: either a `TypeError` (property access on
`undefined`) or a thrown `CFError`. -/
inductive JSError where
  | typeErr : JSError
  | cf : CFError → JSError
deriving Repr, DecidableEq

/-- An exact decimal number `mant × 10⁻ᵉˣᵖ`: the representation of the
JavaScript numbers that flow through the embedded code paths (every one
is produced by `parseFloat` on a short decimal literal, which such a
pair represents exactly). -/
structure JSNumber where
  mant : ℤ
  exp : ℕ
deriving Repr, DecidableEq

/-- The rational a `JSNumber` denotes. -/
def JSNumber.toRat (n : JSNumber) : ℚ :=
  (n.mant : ℚ) / 10 ^ n.exp

/-- A JavaScript value as it occurs in raw result rows and normalized
output rows.  `vnull` stands for both `null` and `undefined` (they are
indistinguishable in every embedded code path); `vnan` is the `NaN`
result of a failed `parseFloat`. -/
inductive JSValue where
  | vnull : JSValue
  | vnan : JSValue
  | vnum : JSNumber → JSValue
  | vstr : String → JSValue
  | vbool : Bool → JSValue
deriving Repr, DecidableEq

/-- JavaScript truthiness of a `JSValue` (`0`, `NaN`, `""`, `false`,
`null`/`undefined` are falsy). -/
def jsTruthy : JSValue → Bool
  | .vnull => false
  | .vnan => false
  | .vnum n => n.mant ≠ 0
  | .vstr s => s ≠ ""
  | .vbool b => b

/-- Truthiness of an optional string as JavaScript sees the underlying
value: `undefined` and `""` are falsy. -/
def jsTruthyStr : Option String → Bool
  | none => false
  | some s => s ≠ ""

/-- Rendering of an optional string in a string context: JavaScript
renders `undefined` as the text `"undefined"` (template literals and
`+` concatenation). -/
def jsStrOrUndefined : Option String → String
  | none => "undefined"
  | some s => s

/--
`NetSuiteHelper.getOperator` from `src/tools/helper.ts` (lines 88-213):
translates a generic filter operator to the backend operator token, for
request type `"sql"` (textual / SuiteQL) or `"script"` (structured /
SuiteScript search), parameterized by the column's data type.  The
`"sql"` branch never throws; the `"script"` branch throws a `CFError`
of kind `AIErr` for every unmapped (datatype, operator) pair.
-/
def getOperator (reqtype datatype operator : String) : Except CFError String :=
  let notFound : Except CFError String := .error ⟨"AIErr",
    "Operator " ++ operator ++ " for datetype " ++ datatype ++ " not found for " ++ reqtype⟩
  if reqtype = "sql" then
    if (operator = "=" ∧ datatype = "string") ∨ operator = "Like" then
      .ok "LIKE"
    else if (operator = "!=" ∧ datatype = "string") ∨ operator = "Not_Like" then
      .ok "NOT LIKE"
    else
      .ok operator
  else
    if datatype = "boolean" then .ok "is"
    else if datatype = "number" then
      if operator = "=" then .ok "EQUALTO"
      else if operator = "!=" then .ok "NOTEQUALTO"
      else if operator = "<" then .ok "LESSTHAN"
      else if operator = "<=" then .ok "LESSTHANOREQUALTO"
      else if operator = ">" then .ok "GREATERTHAN"
      else if operator = ">=" then .ok "GREATERTHANOREQUALTO"
      else notFound
    else if datatype = "date" then
      if operator = "=" then .ok "ON"
      else if operator = "!=" then .ok "NOTON"
      else if operator = "<" then .ok "BEFORE"
      else if operator = "<=" then .ok "ONORBEFORE"
      else if operator = ">" then .ok "AFTER"
      else if operator = ">=" then .ok "ONORAFTER"
      else notFound
    else if datatype = "string" then
      if operator = "=" ∨ operator = "Like" then .ok "CONTAINS"
      else if operator = "!=" ∨ operator = "Not_Like" then .ok "DOESNOTCONTAIN"
      else notFound
    else if datatype = "id" then
      if operator = "=" ∨ operator = "Like" then .ok "ANYOF"
      else if operator = "!=" ∨ operator = "Not_Like" then .ok "NONEOF"
      else notFound
    else notFound

/-- The eight generic filter operators of the input envelope. -/
def genericOperators : List String :=
  ["<", "<=", ">", ">=", "=", "!=", "Like", "Not_Like"]

/-- The data types the specification's operator tables (§4.1) speak about. -/
def specDataTypes : List String :=
  ["string", "number", "date", "boolean", "id"]

/--
Modelled from the spec (§4.1 tables), for comparison with `getOperator`:
the documented operator mapping.  `some tok` means the (backend,
dataType, operator) triple is documented to translate to `tok`; `none`
means the triple is undocumented and the translator is claimed to raise
an `UnsupportedOperator` error.  The textual table reads "string
equals/like → LIKE, string not-equals/not-like → NOT LIKE, every other
operator unchanged".
-/
def specOperatorTable (backend datatype operator : String) : Option String :=
  if backend = "sql" then
    if datatype = "string" ∧ (operator = "=" ∨ operator = "Like") then some "LIKE"
    else if datatype = "string" ∧ (operator = "!=" ∨ operator = "Not_Like") then
      some "NOT LIKE"
    else some operator
  else
    if datatype = "boolean" then some "is"
    else if datatype = "number" then
      if operator = "=" then some "EQUALTO"
      else if operator = "!=" then some "NOTEQUALTO"
      else if operator = "<" then some "LESSTHAN"
      else if operator = "<=" then some "LESSTHANOREQUALTO"
      else if operator = ">" then some "GREATERTHAN"
      else if operator = ">=" then some "GREATERTHANOREQUALTO"
      else none
    else if datatype = "date" then
      if operator = "=" then some "ON"
      else if operator = "!=" then some "NOTON"
      else if operator = "<" then some "BEFORE"
      else if operator = "<=" then some "ONORBEFORE"
      else if operator = ">" then some "AFTER"
      else if operator = ">=" then some "ONORAFTER"
      else none
    else if datatype = "string" then
      if operator = "=" ∨ operator = "Like" then some "CONTAINS"
      else if operator = "!=" ∨ operator = "Not_Like" then some "DOESNOTCONTAIN"
      else none
    else if datatype = "id" then
      if operator = "=" ∨ operator = "Like" then some "ANYOF"
      else if operator = "!=" ∨ operator = "Not_Like" then some "NONEOF"
      else none
    else none

end NetSuiteMCP

namespace NetSuiteMCP

/--
**C2, counterexample.**  The claim states that every triple documented in
the §4.1 tables translates to exactly the documented token.  For the
textual backend the documented table says every operator other than the
string equality/like family is unchanged, so `("sql", "number", "Like")`
is documented as `"Like"`; but `getOperator` returns `"LIKE"` (its
`operator === 'Like'` test ignores the data type).  (Under the
alternative reading that the triple is undocumented, the claim requires
an error; `getOperator` still returns a token, so the claim fails either
way.)
-/
theorem c2_counterexample :
    specOperatorTable "sql" "number" "Like" = some "Like" ∧
    getOperator "sql" "number" "Like" = Except.ok "LIKE" := by
  constructor <;> rfl

/-- Whether a translator result is a thrown `CFError` of kind `AIErr`. -/
def isAIErr : Except CFError String → Bool
  | .error e => e.kind = "AIErr"
  | .ok _ => false

/--
**C2, amended.**  On the textual backend `Like` translates to `LIKE` and
`Not_Like` to `NOT LIKE` for *every* data type (not only `string`);
string `=`/`!=` translate to `LIKE`/`NOT LIKE`; every other (data type,
operator) pair passes the operator through unchanged, and the textual
branch never raises.  On the structured backend the translator agrees
with the documented §4.1 tables exactly: every documented triple yields
the documented token and every undocumented triple raises a `CFError`
of kind `AIErr`.
-/
theorem c2_amended (datatype operator : String)
    (hd : datatype ∈ specDataTypes) (ho : operator ∈ genericOperators) :
    (getOperator "sql" datatype operator =
      .ok (if operator = "Like" ∨ (operator = "=" ∧ datatype = "string") then "LIKE"
        else if operator = "Not_Like" ∨ (operator = "!=" ∧ datatype = "string") then "NOT LIKE"
        else operator)) ∧
    (∀ tok, specOperatorTable "script" datatype operator = some tok →
      getOperator "script" datatype operator = .ok tok) ∧
    (specOperatorTable "script" datatype operator = none →
      isAIErr (getOperator "script" datatype operator) = true) := by
  fin_cases hd <;> fin_cases ho <;>
    refine ⟨rfl, fun tok h => ?_, fun h => ?_⟩ <;>
    first
      | rfl
      | (injection h with h2; subst h2; rfl)
      | (injection h; done)

/-- Witness for `c2_amended` at a concrete triple: data type `number`,
operator `Like` (textual result `LIKE`; structured: `AIErr`). -/
theorem c2_amended_witness :
    getOperator "sql" "number" "Like" = .ok "LIKE" ∧
    isAIErr (getOperator "script" "number" "Like") = true := by
  obtain ⟨h1, _, h3⟩ := c2_amended "number" "Like" (by decide) (by decide)
  exact ⟨h1, h3 (by rfl)⟩

/-! ## Result normalizers (`src/utils/transform.ts`) -/

/-- ASCII lower-casing of a character (`String.prototype.toLowerCase`
restricted to the ASCII range; every key and column name in the
repository is ASCII). -/
def charToLower (c : Char) : Char :=
  if 'A' ≤ c ∧ c ≤ 'Z' then Char.ofNat (c.toNat + 32) else c

/-- ASCII lower-casing of a string. -/
def strToLower (s : String) : String :=
  String.mk (s.toList.map charToLower)

/-- Longest leading run of decimal digits of a character list, with the
remainder. -/
def takeDigits : List Char → List Char × List Char
  | [] => ([], [])
  | c :: cs =>
    if c.isDigit then
      let (ds, rest) := takeDigits cs
      (c :: ds, rest)
    else ([], c :: cs)

/-- Natural number denoted by a list of decimal digits. -/
def natOfDigits (ds : List Char) : ℕ :=
  ds.foldl (fun a c => 10 * a + (c.toNat - 48)) 0

/--
JavaScript `parseFloat`, embedded over exact decimals: skip leading
whitespace, read an optional sign and a decimal literal
(`digits [. digits]`, at least one digit), ignore any trailing text;
`none` models the `NaN` result when no digit is found.  (The exponent
form `1e5` and `Infinity`, which no embedded code path produces, are
not modelled.)
-/
def parseFloatNum (s : String) : Option JSNumber :=
  let cs := s.toList.dropWhile (fun c => c = ' ' ∨ c = '\t' ∨ c = '\n' ∨ c = '\r')
  let signed : Bool × List Char :=
    match cs with
    | '-' :: r => (true, r)
    | '+' :: r => (false, r)
    | r => (false, r)
  let (intDs, rest) := takeDigits signed.2
  let fracDs : List Char :=
    match rest with
    | '.' :: r => (takeDigits r).1
    | _ => []
  if intDs = [] ∧ fracDs = [] then none
  else
    let mag : ℤ := (natOfDigits intDs * 10 ^ fracDs.length + natOfDigits fracDs : ℕ)
    some ⟨if signed.1 then -mag else mag, fracDs.length⟩

/-- Strip factors of ten from a decimal pair: the minimal-digit form
JavaScript prints. -/
def canonDec : ℤ → ℕ → ℤ × ℕ
  | m, 0 => (m, 0)
  | m, e + 1 =>
    if m = 0 then (0, 0)
    else if m % 10 = 0 then canonDec (m / 10) e
    else (m, e + 1)

/-- Decimal rendering of a `JSNumber`, as JavaScript renders the
corresponding number: integral values without a point, terminating
decimals with the minimal number of fraction digits. -/
def jsNumToString (n : JSNumber) : String :=
  match canonDec n.mant n.exp with
  | (m, 0) => toString m
  | (m, k + 1) =>
    let ds := toString m.natAbs
    let ds := if ds.length < k + 2 then
        String.mk (List.replicate (k + 2 - ds.length) '0') ++ ds
      else ds
    (if m < 0 then "-" else "") ++
      (ds.toList.take (ds.length - (k + 1))).asString ++ "." ++
      (ds.toList.drop (ds.length - (k + 1))).asString

/-- JavaScript `String(v)` on an embedded value. -/
def jsToString : JSValue → String
  | .vnull => "null"
  | .vnan => "NaN"
  | .vnum n => jsNumToString n
  | .vstr s => s
  | .vbool true => "true"
  | .vbool false => "false"

/-- A column descriptor as consumed by the object-keyed normalizer
`transform`: optional backend field name, semantic type, optional date
format. -/
structure TransformCol where
  name : Option String := none
  type : String
  format : Option String := none
deriving Repr, DecidableEq

/-- The type-directed value coercion of `transform` (`transform.ts`
lines 31-48): `parseFloat` for `number` columns, date re-formatting when
a format is declared, `"1"`/`"0"` to `true`/`false` for `boolean`
columns, pass-through otherwise. -/
def coerceValue (fmtToISO : String → String → String) (field : TransformCol)
    (v : JSValue) : JSValue :=
  if field.type = "number" then
    match parseFloatNum (jsToString v) with
    | some n => .vnum n
    | none => .vnan
  else if field.type = "date" ∧ field.format.isSome then
    .vstr (fmtToISO (jsToString v) (field.format.getD ""))
  else if field.type = "boolean" then
    if jsToString v = "1" then .vbool true
    else if jsToString v = "0" then .vbool false
    else v
  else v

/-- The per-column step of the object-keyed normalizer: resolve the
source key (`field.name ?? propertyName`), find the raw-row key by
case-insensitive comparison, and keep the coerced value unless it is
`null`/`undefined`.  The output pair is keyed by the resolved *source*
key (`newObj[sourceKey] = …` in the source). -/
def transformField (fmtToISO : String → String → String)
    (obj : List (String × JSValue)) (pn : String × TransformCol) :
    Option (String × JSValue) :=
  let sourceKey := pn.2.name.getD pn.1
  match obj.find? (fun kv => strToLower kv.1 = strToLower sourceKey) with
  | none => none
  | some kv =>
    if kv.2 = JSValue.vnull then none
    else some (sourceKey, coerceValue fmtToISO pn.2 kv.2)

/-- `transform` from `src/utils/transform.ts` (lines 12-54): the
object-keyed result normalizer, mapped over the raw rows. -/
def transform (fmtToISO : String → String → String)
    (jsonArray : List (List (String × JSValue)))
    (propertyNames : List (String × TransformCol)) :
    List (List (String × JSValue)) :=
  jsonArray.map (fun obj => propertyNames.filterMap (transformField fmtToISO obj))

/-- A column descriptor as consumed by the positional normalizer
`transformArray`: semantic type and optional date format. -/
structure TransformArrayCol where
  type : String
  format : Option String := none
deriving Repr, DecidableEq

/-- The type-directed value coercion of `transformArray` (`transform.ts`
lines 66-76): as `coerceValue` but with no boolean branch. -/
def coerceValueArr (fmtToISO : String → String → String)
    (field : TransformArrayCol) (v : JSValue) : JSValue :=
  if field.type = "number" then
    match parseFloatNum (jsToString v) with
    | some n => .vnum n
    | none => .vnan
  else if field.type = "date" ∧ field.format.isSome then
    .vstr (fmtToISO (jsToString v) (field.format.getD ""))
  else v

/-- The per-column step of the positional normalizer: the source value is
the raw row's entry at the column's ordinal position, kept only when
truthy (`if (obj[index])` in the source; an out-of-range index reads
`undefined`, which is falsy). -/
def transformArrayField (fmtToISO : String → String → String)
    (obj : List JSValue) (ic : ℕ × String × TransformArrayCol) :
    Option (String × JSValue) :=
  match obj.get? ic.1 with
  | some v =>
    if jsTruthy v then some (ic.2.1, coerceValueArr fmtToISO ic.2.2 v) else none
  | none => none

/-- `transformArray` from `src/utils/transform.ts` (lines 55-81): the
positional-array result normalizer, mapped over the raw rows. -/
def transformArray (fmtToISO : String → String → String)
    (jsonArray : List (List JSValue))
    (propertyNames : List (String × TransformArrayCol)) :
    List (List (String × JSValue)) :=
  jsonArray.map (fun obj => propertyNames.enum.filterMap (transformArrayField fmtToISO obj))

/-- A fixed stand-in for the date-formatting collaborator in theorems
whose inputs involve no date column (the formatter is never consulted
there). -/
def noDateFmt : String → String → String := fun _ _ => ""

end NetSuiteMCP

namespace NetSuiteMCP

/--
**C4, counterexample.**  The claim says both normalizer variants treat
every falsy source value — explicitly including `0`, `false` and the
empty string — as absent.  The object-keyed variant does not: it drops a
value only when it is `null`/`undefined` (`!== null && !== undefined` in
the source), so a raw row holding `Amount: 0`, `Flag: false` and
`Name: ""` normalizes to a row that still carries all three columns.
-/
theorem c4_counterexample :
    transform noDateFmt
        [[("Amount", JSValue.vnum ⟨0, 0⟩), ("Flag", JSValue.vbool false),
          ("Name", JSValue.vstr "")]]
        [("Amount", { type := "number" }), ("Flag", { type := "boolean" }),
          ("Name", { type := "string" })] =
      [[("Amount", JSValue.vnum ⟨0, 0⟩), ("Flag", JSValue.vbool false),
        ("Name", JSValue.vstr "")]] := by
  decide

/--
**C4, amended.**  Only the positional-array variant treats falsy source
values as absent: its per-column step yields nothing exactly when the
value at the column's position is falsy (including explicit `0`,
`false`, `""`, and a missing position).  The object-keyed variant's
per-column step yields nothing exactly when no raw-row key matches
case-insensitively or the matched value is `null`/`undefined`; every
present non-null value — falsy or not — is kept.
-/
theorem c4_amended (fmt : String → String → String) (obj : List JSValue)
    (row : List (String × JSValue)) (i : ℕ) (k : String)
    (ca : TransformArrayCol) (co : TransformCol) :
    (transformArrayField fmt obj (i, k, ca) = none ↔
      jsTruthy ((obj.get? i).getD JSValue.vnull) = false) ∧
    (transformField fmt row (k, co) = none ↔
      ∀ kv, row.find? (fun e => strToLower e.1 = strToLower (co.name.getD k)) = some kv →
        kv.2 = JSValue.vnull) := by
  constructor
  · unfold transformArrayField
    cases h : obj.get? i with
    | none => simp [h, jsTruthy]
    | some v =>
      simp only [h, Option.getD_some]
      by_cases hv : jsTruthy v <;> simp [hv]
  · unfold transformField
    cases h : row.find? (fun e => strToLower e.1 = strToLower (co.name.getD k)) with
    | none => simp [h]
    | some kv =>
      by_cases hv : kv.2 = JSValue.vnull <;> simp [h, hv]

/-- Witness for `c4_amended` at concrete inputs: position 0 holds the
falsy `0` (positional variant omits it), and the object-keyed row holds
`Amount: 0` (kept, since the iff's right side fails). -/
theorem c4_amended_witness :
    (transformArrayField noDateFmt [JSValue.vnum ⟨0, 0⟩]
        (0, "Amount", { type := "number" }) = none) ∧
    ¬ transformField noDateFmt [("Amount", JSValue.vnum ⟨0, 0⟩)]
        ("Amount", { type := "number" }) = none := by
  obtain ⟨h1, h2⟩ := c4_amended noDateFmt [JSValue.vnum ⟨0, 0⟩]
    [("Amount", JSValue.vnum ⟨0, 0⟩)] 0 "Amount" { type := "number" } { type := "number" }
  refine ⟨h1.mpr (by decide), fun hnone => ?_⟩
  have := h2.mp hnone ("Amount", JSValue.vnum ⟨0, 0⟩) (by decide)
  exact absurd this (by decide)

/--
**C7, counterexample.**  The claim expects the object-keyed normalizer
to key its output row by the *logical* column name, producing
`{AccountNumber:"4010", Amount:123.45}` on the documented example.  The
source instead writes `newObj[sourceKey]`, where `sourceKey` is the
declared backend field name when present, so the output row of the
example is keyed `acctnumber`, not `AccountNumber`.
-/
theorem c7_counterexample :
    transform noDateFmt
        [[("ACCTNUMBER", JSValue.vstr "4010"), ("AMOUNT", JSValue.vstr "123.45")]]
        [("AccountNumber", { name := some "acctnumber", type := "string" }),
          ("Amount", { type := "number" })] ≠
      [[("AccountNumber", JSValue.vstr "4010"), ("Amount", JSValue.vnum ⟨12345, 2⟩)]] ∧
    (JSNumber.toRat ⟨12345, 2⟩ : ℚ) = 123.45 := by
  exact ⟨by decide, by norm_num [JSNumber.toRat]⟩

/--
**C7, amended.**  On the documented example the object-keyed normalizer
matches raw-row keys case-insensitively, coerces the number column with
`parseFloat`, and keys each output entry by the column's declared
backend field name when one is present (else the logical name): the
output row is `{acctnumber:"4010", Amount:123.45}`.
-/
theorem c7_amended :
    transform noDateFmt
        [[("ACCTNUMBER", JSValue.vstr "4010"), ("AMOUNT", JSValue.vstr "123.45")]]
        [("AccountNumber", { name := some "acctnumber", type := "string" }),
          ("Amount", { type := "number" })] =
      [[("acctnumber", JSValue.vstr "4010"), ("Amount", JSValue.vnum ⟨12345, 2⟩)]] ∧
    (JSNumber.toRat ⟨12345, 2⟩ : ℚ) = 12345 / 100 := by
  exact ⟨by decide, by norm_num [JSNumber.toRat]⟩

/-! ## Hierarchy resolver (`src/tools/accounts/GetAccountBalance.ts`) -/

/-- A flat account record as consumed by the descendant expansion
(`AccountData` in `GetAccountBalance.ts`): numeric id, account number,
and the parent's account number resolved by the flat rewrite pass
(`undefined` when the account has no parent). -/
structure AccountData where
  Id : ℤ
  AccountNumber : String
  Name : String := ""
  ParentNumber : Option String := none
deriving Repr, DecidableEq

/--
The inner `findRecursively` of `GetAccountBalance.getChildrenByNumber`
(lines 341-359): collect the ids of all records whose `ParentNumber`
equals the current number, then recurse *on each child id rendered as a
string* (`findRecursively(child.toString())` in the source — not on the
child's account number).  The source recursion has no termination
guard (a cyclic parent chain loops forever); `fuel` bounds the embedded
recursion depth and is never exhausted on acyclic data of depth below
it.
-/
def findRecursively (accountData : List AccountData) : ℕ → String → List ℤ
  | 0, _ => []
  | fuel + 1, currentNumb =>
    let children :=
      (accountData.filter (fun node => node.ParentNumber = some currentNumb)).map
        (fun d => d.Id)
    children ++ children.flatMap (fun child => findRecursively accountData fuel (toString child))

/-- `GetAccountBalance.getChildrenByNumber` (lines 341-370): push the id
of the record whose `AccountNumber` matches (if any), then run the
recursive child search from the starting number. -/
def getChildrenByNumber (accountData : List AccountData) (Numb : String) (fuel : ℕ) :
    List ℤ :=
  (match accountData.find? (fun node => node.AccountNumber = Numb) with
    | some selfAcc => [selfAcc.Id]
    | none => []) ++ findRecursively accountData fuel Numb

/-- The three-record example of the claim: 4011 is a child of 4010,
which is a child of 4000. -/
def c1Accounts : List AccountData :=
  [⟨1, "4000", "", none⟩, ⟨2, "4010", "", some "4000"⟩, ⟨3, "4011", "", some "4010"⟩]

/--
**C1** (code bug, witnessed).  On the claim's example the descendant
expansion from `"4000"` returns the id list `[1, 2]` for every recursion
budget of at least 2 — id 3 is never reached, although the claim (and
the spec's recursive-expansion description, and the repository's own
`ParentNumber`/`AccountNumber` hierarchy contract) requires the id set
`{1, 2, 3}`.  The cause: `findRecursively` recurses on the child's *id*
rendered as a string (`"2"`), not on the child's account number
(`"4010"`), so no record with `ParentNumber = "4010"` is ever visited.
-/
theorem c1_bug (f : ℕ) :
    getChildrenByNumber c1Accounts "4000" (f + 2) = [1, 2] ∧
    (3 : ℤ) ∉ getChildrenByNumber c1Accounts "4000" (f + 2) := by
  have ht : toString (2 : ℤ) = "2" := by decide
  have h : getChildrenByNumber c1Accounts "4000" (f + 2) = [1, 2] := by
    simp [getChildrenByNumber, c1Accounts, findRecursively, List.filter, List.find?, ht]
  exact ⟨h, by rw [h]; decide⟩

/-! ## Textual (SuiteQL) query compiler (`src/tools/helper.ts`) -/

/-- A SuiteQL column descriptor (`SuiteQLColumns` entry in `helper.ts`):
raw SQL reference, semantic type, optional date format, optional
filter-only marker. -/
structure SuiteQLCol where
  sql : String
  type : String
  format : Option String := none
  filterOnly : Option Bool := none
deriving Repr, DecidableEq

/-- A generic filter parameter `(Column, Operator, Value)`. -/
structure FilterParam where
  Column : String
  Operator : String
  Value : String
deriving Repr, DecidableEq

/-- A generic order specification.  `SortOrder` is optional in the
TypeScript interface (`'DESC' | 'ASC' | ''`). -/
structure OrderByParam where
  Column : String
  SortOrder : Option String := none
deriving Repr, DecidableEq

/-- A caller-supplied default sort (always fully specified). -/
structure DefaultSort where
  Column : String
  SortOrder : String
deriving Repr, DecidableEq

/-- The generic query-parameter envelope (`NetSuiteParams`). -/
structure NetSuiteParams where
  CountOnly : Option Bool := none
  OrderBy : Option OrderByParam := none
  Filters : Option (List FilterParam) := none
  Limit : Option ℕ := none
  Offset : Option ℕ := none
deriving Repr, DecidableEq

/-- `Columns[key]` on an insertion-ordered string-keyed object,
embedded as an association list: the first binding wins, a missing key
reads `undefined` (`none`). -/
def lookupCol {α : Type} (Columns : List (String × α)) (k : String) : Option α :=
  (Columns.find? (fun e => e.1 = k)).map (fun e => e.2)

/-- The filter loop of `NetSuiteHelper.getFiltersSQL` (lines 230-279),
with the string accumulator made explicit: a filter whose column is
absent from the column map is skipped (`continue` after a log entry);
otherwise ` AND ` is appended between clauses and the clause is
`<sql> <operator> <formattedValue>` with the value formatted by column
type (`TO_DATE` literal for dates, `%`-wrapped quoted string for
strings, quoted literal otherwise). -/
def getFiltersSQLAux (dateFmt : String → String → String)
    (Columns : List (String × SuiteQLCol)) :
    List FilterParam → String → Except CFError String
  | [], filters => .ok filters
  | filter :: rest, filters =>
    match lookupCol Columns filter.Column with
    | none => getFiltersSQLAux dateFmt Columns rest filters
    | some columnConfig =>
      let filters := if filters ≠ "" then filters ++ " AND " else filters
      match getOperator "sql" columnConfig.type filter.Operator with
      | .error e => .error e
      | .ok operator =>
        let formattedValue :=
          if columnConfig.type = "date" then
            " TO_DATE('" ++ dateFmt filter.Value "yyyyMMdd" ++ "', 'YYYYMMDD') "
          else if columnConfig.type = "string" then
            " '%" ++ filter.Value ++ "%' "
          else
            " '" ++ filter.Value ++ "' "
        getFiltersSQLAux dateFmt Columns rest
          (filters ++ columnConfig.sql ++ " " ++ operator ++ " " ++ formattedValue)

/-- `NetSuiteHelper.getFiltersSQL` (lines 215-293): render the generic
filters to a SQL `WHERE` fragment. -/
def getFiltersSQL (dateFmt : String → String → String)
    (Columns : List (String × SuiteQLCol)) (filtersParams : List FilterParam) :
    Except CFError String :=
  getFiltersSQLAux dateFmt Columns filtersParams ""

/-- Replacement of the first occurrence of a pattern, as JavaScript
`String.prototype.replace` with a string pattern does. -/
def replaceFirst (s pat rep : String) : String :=
  match s.splitOn pat with
  | [] => s
  | [_] => s
  | a :: rest => a ++ rep ++ String.intercalate pat rest

/-- The projected column list of `formatSQL` (lines 316-321):
`<sql> AS <key>` for every non-filter-only column, comma-separated. -/
def sqlColumnsClause (Columns : List (String × SuiteQLCol)) : String :=
  String.intercalate ", "
    (Columns.filterMap (fun e =>
      if e.2.filterOnly ≠ some true then some (e.2.sql ++ " AS " ++ e.1) else none))

/-- The row-limit directive of `formatSQL` (line 333): empty in count
mode, `TOP <n>` when a truthy limit was requested. -/
def sqlLimitClause (params : NetSuiteParams) : String :=
  if params.CountOnly = some true then ""
  else match params.Limit with
    | some l => if l ≠ 0 then "TOP " ++ toString l else ""
    | none => ""

/-- The `{Columns}` substitution of `formatSQL` (lines 335-338): the
single count aggregate in count mode, else the limit directive and
column list. -/
def sqlColumnsSubst (Columns : List (String × SuiteQLCol)) (params : NetSuiteParams) :
    String :=
  if params.CountOnly = some true then "COUNT(*) AS Count"
  else sqlLimitClause params ++ " " ++ sqlColumnsClause Columns

/-- The resolved `ORDER BY` body of `formatSQL` (lines 340-347): empty
in count mode; else the requested order column when the column map
knows it, else the caller's default sort column when the map knows
that, else empty. -/
def sqlOrderByClause (Columns : List (String × SuiteQLCol)) (params : NetSuiteParams)
    (defaultSort : DefaultSort) : String :=
  if params.CountOnly = some true then ""
  else
    match params.OrderBy with
    | some ob =>
      match lookupCol Columns ob.Column with
      | some c => c.sql ++ " " ++ jsStrOrUndefined ob.SortOrder
      | none =>
        match lookupCol Columns defaultSort.Column with
        | some c => c.sql ++ " " ++ defaultSort.SortOrder
        | none => ""
    | none =>
      match lookupCol Columns defaultSort.Column with
      | some c => c.sql ++ " " ++ defaultSort.SortOrder
      | none => ""

/-- The string substituted for `{OrderBy}` (line 360): `ORDER BY `
prefixed to the resolved order body when that is non-empty, else
empty. -/
def sqlOrderBySubst (Columns : List (String × SuiteQLCol)) (params : NetSuiteParams)
    (defaultSort : DefaultSort) : String :=
  let OrderBy := sqlOrderByClause Columns params defaultSort
  if OrderBy ≠ "" then "ORDER BY " ++ OrderBy else ""

/-- The combined `WHERE` body of `formatSQL` (lines 362-365): a space
plus the inbuilt fragment when non-empty, then the rendered generic
filters, joined with ` AND ` when both are present. -/
def sqlWhereBody (inbuiltFilter filterString : String) : String :=
  let filters := if inbuiltFilter ≠ "" then " " ++ inbuiltFilter else ""
  if filterString ≠ "" then
    filters ++ (if filters ≠ "" then " AND " else "") ++ filterString
  else filters

/-- `NetSuiteHelper.formatSQL` (lines 295-397): substitute the
`{Columns}`, `{OrderBy}` and `{Filters}` placeholders of the base
statement. -/
def formatSQL (dateFmt : String → String → String) (sql : String)
    (Columns : List (String × SuiteQLCol)) (params : NetSuiteParams)
    (inbuiltFilter : String) (defaultSort : DefaultSort) : Except CFError String :=
  let sql := replaceFirst sql "{Columns}" (sqlColumnsSubst Columns params)
  let sql := replaceFirst sql "{OrderBy}" (sqlOrderBySubst Columns params defaultSort)
  match (match params.Filters with
    | some fs => getFiltersSQL dateFmt Columns fs
    | none => .ok "") with
  | .error e => .error e
  | .ok filterString =>
    let filters := sqlWhereBody inbuiltFilter filterString
    .ok (replaceFirst sql "{Filters}" (if filters ≠ "" then "WHERE " ++ filters else ""))

/-- The `"sql"` branch of the operator translator never throws. -/
theorem getOperator_sql_ok (d o : String) : ∃ t, getOperator "sql" d o = .ok t := by
  by_cases h1 : (o = "=" ∧ d = "string") ∨ o = "Like"
  · exact ⟨"LIKE", by simp [getOperator, h1]⟩
  · by_cases h2 : (o = "!=" ∧ d = "string") ∨ o = "Not_Like"
    · exact ⟨"NOT LIKE", by simp [getOperator, h1, h2]⟩
    · exact ⟨o, by simp [getOperator, h1, h2]⟩

/-- The SQL filter loop ignores filters whose column the map does not
know: running it on a filter list and on that list with the unknown
columns dropped gives the same result. -/
theorem getFiltersSQLAux_skips (dateFmt : String → String → String)
    (Columns : List (String × SuiteQLCol)) :
    ∀ (fil : List FilterParam) (acc : String),
      getFiltersSQLAux dateFmt Columns fil acc =
        getFiltersSQLAux dateFmt Columns
          (fil.filter (fun f => (lookupCol Columns f.Column).isSome)) acc := by
  intro fil
  induction fil with
  | nil => intro acc; rfl
  | cons f rest ih =>
    intro acc
    cases h : lookupCol Columns f.Column with
    | none => simp [getFiltersSQLAux, h, List.filter, ih acc]
    | some c =>
      simp only [List.filter, h, Option.isSome_some]
      unfold getFiltersSQLAux
      rw [h]
      dsimp only
      obtain ⟨t, ht⟩ := getOperator_sql_ok c.type f.Operator
      rw [ht]
      exact ih _

/-- The SQL filter loop never throws. -/
theorem getFiltersSQLAux_ok (dateFmt : String → String → String)
    (Columns : List (String × SuiteQLCol)) :
    ∀ (fil : List FilterParam) (acc : String),
      ∃ s, getFiltersSQLAux dateFmt Columns fil acc = .ok s := by
  intro fil
  induction fil with
  | nil => intro acc; exact ⟨acc, rfl⟩
  | cons f rest ih =>
    intro acc
    cases h : lookupCol Columns f.Column with
    | none => simpa [getFiltersSQLAux, h] using ih acc
    | some c =>
      unfold getFiltersSQLAux
      rw [h]
      dsimp only
      obtain ⟨t, ht⟩ := getOperator_sql_ok c.type f.Operator
      rw [ht]
      exact ih _

/-- The column map and filter list of the C8 example. -/
def c8Cols : List (String × SuiteQLCol) :=
  [("Id", { sql := "a.Id", type := "number" }), ("Name", { sql := "a.Name", type := "string" })]

/-- The single string-equality filter of the C8 example. -/
def c8Filters : List FilterParam := [⟨"Name", "=", "Acme"⟩]

/--
**C8, counterexample.**  On the documented example the rendered WHERE
fragment is `a.Name LIKE  '%Acme%' ` with *two* spaces between the
operator and the quoted value (the source appends `` ` ${operator} ` ``
and then a formatted value that itself starts with a space), so the
single-spaced substring `a.Name LIKE '%Acme%'` the claim requires does
not occur in it.
-/
theorem c8_counterexample :
    getFiltersSQL noDateFmt c8Cols c8Filters = .ok "a.Name LIKE  '%Acme%' " ∧
    ¬ List.IsInfix ("a.Name LIKE '%Acme%'").toList ("a.Name LIKE  '%Acme%' ").toList := by
  exact ⟨rfl, by decide⟩

/--
**C8, amended.**  The fragment rendered for the documented example is
exactly `a.Name LIKE  '%Acme%' `, which contains the substring
`a.Name LIKE  '%Acme%'` — string equality rendered as `LIKE` with the
value wrapped in wildcard characters, but with two spaces between the
operator and the value literal.
-/
theorem c8_amended :
    getFiltersSQL noDateFmt c8Cols c8Filters = .ok "a.Name LIKE  '%Acme%' " ∧
    List.IsInfix ("a.Name LIKE  '%Acme%'").toList ("a.Name LIKE  '%Acme%' ").toList := by
  exact ⟨rfl, by decide⟩

/-! ## Structured (SuiteScript search) query compiler (`src/tools/helper.ts`) -/

/-- A SuiteScript search column descriptor (`SuiteScriptColumns` entry
in `helper.ts`). -/
structure SuiteScriptCol where
  name : Option String := none
  type : String
  filtertype : Option String := none
  format : Option String := none
  filterOnly : Option Bool := none
  formula : Option String := none
  filterformula : Option String := none
  txt : Option Bool := none
  join : Option String := none
  summary : Option String := none
deriving Repr, DecidableEq

/-- An entry of the structured filter expression
(`Array<string | string[]>` in the source): either a bare connective
string (`"AND"`) or a `[fieldReference, operator, value]` triple. -/
inductive FilterElem where
  | str : String → FilterElem
  | triple : String → String → String → FilterElem
deriving Repr, DecidableEq

/-- The filter loop of `NetSuiteHelper.getFiltersSearch` (lines
544-572), with the accumulator explicit.  The source pushes `'AND'`,
then dereferences `Columns[filter.Column]` with **no existence check**:
a filter whose column is absent from the map throws a `TypeError`
(`.error .typeErr` here); an unmapped operator/type pair propagates the
translator's `CFError`. -/
def getFiltersSearchAux (dateFmt : String → String → String)
    (Columns : List (String × SuiteScriptCol)) :
    List FilterParam → List FilterElem → Except JSError (List FilterElem)
  | [], filters => .ok filters
  | filter :: rest, filters =>
    let filters := if filters.length ≠ 0 then filters ++ [FilterElem.str "AND"] else filters
    match lookupCol Columns filter.Column with
    | none => .error .typeErr
    | some c =>
      let colName :=
        if jsTruthyStr c.filterformula then c.filterformula.getD ""
        else if jsTruthyStr c.formula then c.formula.getD ""
        else if jsTruthyStr c.join then (c.join.getD "") ++ "." ++ jsStrOrUndefined c.name
        else jsStrOrUndefined c.name
      match getOperator "script" (c.filtertype.getD c.type) filter.Operator with
      | .error e => .error (.cf e)
      | .ok operator =>
        let value :=
          if c.type = "date" then dateFmt filter.Value (c.format.getD "M/d/yyyy")
          else filter.Value
        getFiltersSearchAux dateFmt Columns rest
          (filters ++ [FilterElem.triple colName operator value])

/-- `NetSuiteHelper.getFiltersSearch` (lines 544-572). -/
def getFiltersSearch (dateFmt : String → String → String)
    (Columns : List (String × SuiteScriptCol)) (filtersParams : List FilterParam) :
    Except JSError (List FilterElem) :=
  getFiltersSearchAux dateFmt Columns filtersParams []

/-- A projected column descriptor of the structured search request
(`GenDictionary` column object built in `formatSearchObj`). -/
structure GenCol where
  name : Option String := none
  txt : Option Bool := none
  join : Option String := none
  summary : Option String := none
  formula : Option String := none
  sort : Option String := none
deriving Repr, DecidableEq

/-- The per-column step of `formatSearchObj`'s projection (lines
610-624): filter-only columns yield the empty object (here `none`,
removed by the `lodash.isEmpty` filter); formula columns split the
formula on `:` for the result-field name and formula body (a formula
with no `:` makes `split(':')[1].trim()` throw a `TypeError`); the
`sort` marker is attached exactly when the key equals the resolved
order column. -/
def buildSearchCol (OrderBy : String × String) (key : String) (c : SuiteScriptCol) :
    Except JSError (Option GenCol) :=
  if c.filterOnly = some true then .ok none
  else if jsTruthyStr c.formula then
    match ((c.formula.getD "").splitOn ":").get? 1 with
    | none => .error .typeErr
    | some p1 =>
      .ok (some { name := some ((((c.formula.getD "").splitOn ":").headD "").trim),
                  txt := c.txt, join := c.join, summary := c.summary,
                  formula := some p1.trim,
                  sort := if key = OrderBy.1 then some OrderBy.2 else none })
  else
    .ok (some { name := c.name, txt := c.txt, join := c.join, summary := c.summary,
                formula := none,
                sort := if key = OrderBy.1 then some OrderBy.2 else none })

/-- The column projection of `formatSearchObj` before the
`lodash.isEmpty` filter: the per-column step over the whole map,
stopping at the first thrown error. -/
def buildSearchColsE (OrderBy : String × String) :
    List (String × SuiteScriptCol) → Except JSError (List (Option GenCol))
  | [] => .ok []
  | e :: rest =>
    match buildSearchCol OrderBy e.1 e.2 with
    | .error err => .error err
    | .ok c =>
      match buildSearchColsE OrderBy rest with
      | .error err => .error err
      | .ok cs => .ok (c :: cs)

/-- The central result-cap ceiling (`NetSuiteHelper.MAX_ARRAY_ITEMS`). -/
def MAX_ARRAY_ITEMS : ℕ := 10000

/-- The structured search descriptor built by `formatSearchObj`
(`searchRestletParams` in the source). -/
structure SearchRestletParams where
  type : String
  filters : List FilterElem
  columns : List GenCol
  countOnly : Bool
  maxResults : ℕ
  settings : List (String × String)
deriving Repr, DecidableEq

/--
`NetSuiteHelper.formatSearchObj` (lines 574-640).  Note: the descriptor
is initialized with `countOnly: false` and that field is never
reassigned; count mode only forces `maxResults` to 1.  The resolved
order pair is `["", ""]` in count mode, the requested column with
`SortOrder || 'ASC'` when an order was requested (with **no check that
the column map knows it**), else the caller's default sort.
-/
def formatSearchObj (dateFmt : String → String → String) (type : String)
    (Columns : List (String × SuiteScriptCol)) (params : NetSuiteParams)
    (inbuiltFilter : List FilterElem) (defaultSort : DefaultSort)
    (settings : Option (List (String × String))) :
    Except JSError SearchRestletParams :=
  let settingsCopy := settings.getD []
  let OrderBy : String × String :=
    if params.CountOnly = some true then ("", "")
    else match params.OrderBy with
      | some ob => (ob.Column, if jsTruthyStr ob.SortOrder then ob.SortOrder.getD "" else "ASC")
      | none => (defaultSort.Column, defaultSort.SortOrder)
  match buildSearchColsE OrderBy Columns with
  | .error e => .error e
  | .ok colOpts =>
    let columns := colOpts.filterMap id
    let limit : ℕ := if params.CountOnly = some true then 1 else params.Limit.getD 0
    match (match params.Filters with
      | some fs => getFiltersSearch dateFmt Columns fs
      | none => .ok []) with
    | .error e => .error e
    | .ok filters =>
      let allFilters := inbuiltFilter ++
        (if inbuiltFilter.length > 0 ∧ filters.length > 0 then [FilterElem.str "AND"] else []) ++
        filters
      .ok { type := type, filters := allFilters, columns := columns,
            countOnly := false, maxResults := limit, settings := settingsCopy }

/-- The descriptor normalization of `NetSuiteHelper.searchRestlet`
(lines 674-679): `countOnly || false`, a zero (falsy) result cap
replaced by the central ceiling, and a `UserErr` when the cap exceeds
the ceiling. -/
def searchRestletDescriptor (dateFmt : String → String → String) (type : String)
    (Columns : List (String × SuiteScriptCol)) (params : NetSuiteParams)
    (inbuiltFilter : List FilterElem) (defaultSort : DefaultSort)
    (settings : Option (List (String × String))) :
    Except JSError SearchRestletParams :=
  match formatSearchObj dateFmt type Columns params inbuiltFilter defaultSort settings with
  | .error e => .error e
  | .ok p =>
    let p := { p with countOnly := p.countOnly || false,
                      maxResults := if p.maxResults ≠ 0 then p.maxResults else MAX_ARRAY_ITEMS }
    if p.maxResults > MAX_ARRAY_ITEMS then
      .error (.cf ⟨"UserErr", "Cannot fetch more than 10000 in a single request"⟩)
    else .ok p

/-- A projected column built for a key different from the resolved
order column carries no sort marker. -/
theorem buildSearchCol_sort_none {ob : String × String} {key : String}
    {c : SuiteScriptCol} {g : GenCol} (hk : key ≠ ob.1)
    (h : buildSearchCol ob key c = .ok (some g)) : g.sort = none := by
  unfold buildSearchCol at h
  by_cases h1 : c.filterOnly = some true
  · rw [if_pos h1] at h
    injection h with h'
    exact Option.noConfusion h'
  · rw [if_neg h1] at h
    by_cases h2 : jsTruthyStr c.formula = true
    · rw [if_pos h2] at h
      cases hx : ((c.formula.getD "").splitOn ":").get? 1 with
      | none => rw [hx] at h; exact Except.noConfusion h
      | some p1 =>
        rw [hx] at h
        dsimp only at h
        injection h with h'
        obtain rfl := Option.some_inj.mp h'
        dsimp only
        rw [if_neg hk]
    · rw [if_neg h2] at h
      injection h with h'
      obtain rfl := Option.some_inj.mp h'
      dsimp only
      rw [if_neg hk]

/-- Every column object in a successful projection comes from an entry
of the column map. -/
theorem buildSearchColsE_mem {ob : String × String} :
    ∀ {l : List (String × SuiteScriptCol)} {cs : List (Option GenCol)},
      buildSearchColsE ob l = .ok cs →
      ∀ c ∈ cs, ∃ e ∈ l, buildSearchCol ob e.1 e.2 = .ok c := by
  intro l
  induction l with
  | nil =>
    intro cs h c hc
    unfold buildSearchColsE at h
    injection h with h'
    subst h'
    exact absurd hc (List.not_mem_nil c)
  | cons e rest ih =>
    intro cs h c hc
    unfold buildSearchColsE at h
    cases hb : buildSearchCol ob e.1 e.2 with
    | error err => rw [hb] at h; exact Except.noConfusion h
    | ok co =>
      rw [hb] at h
      dsimp only at h
      cases hr : buildSearchColsE ob rest with
      | error err => rw [hr] at h; exact Except.noConfusion h
      | ok cs' =>
        rw [hr] at h
        dsimp only at h
        injection h with h'
        subst h'
        rcases List.mem_cons.mp hc with rfl | hc'
        · exact ⟨e, List.mem_cons_self e rest, hb⟩
        · obtain ⟨e', he', hbe⟩ := ih hr c hc'
          exact ⟨e', List.mem_cons_of_mem e he', hbe⟩

/-- The structured filter loop throws whenever the filter list holds a
parameter whose column the map does not know (the error is the
`TypeError` of the unchecked dereference, or an operator error thrown
on an earlier filter first). -/
theorem getFiltersSearchAux_unknown (dateFmt : String → String → String)
    (Columns : List (String × SuiteScriptCol)) :
    ∀ (fil : List FilterParam) (acc : List FilterElem) (f : FilterParam),
      f ∈ fil → lookupCol Columns f.Column = none →
      ∃ e, getFiltersSearchAux dateFmt Columns fil acc = .error e := by
  intro fil
  induction fil with
  | nil => intro acc f hf _; exact absurd hf (List.not_mem_nil f)
  | cons g rest ih =>
    intro acc f hf hnone
    unfold getFiltersSearchAux
    dsimp only
    rcases List.mem_cons.mp hf with rfl | hf'
    · rw [hnone]
      exact ⟨.typeErr, rfl⟩
    · cases hg : lookupCol Columns g.Column with
      | none => exact ⟨.typeErr, rfl⟩
      | some c =>
        dsimp only
        cases ho : getOperator "script" (c.filtertype.getD c.type) g.Operator with
        | error e => exact ⟨.cf e, rfl⟩
        | ok t => exact ih _ f hf' hnone

/-- A string with a space appended between two parts is never empty. -/
theorem append_space_ne_empty (s t : String) : s ++ " " ++ t ≠ "" := by
  intro h
  have h2 := congrArg String.length h
  simp [String.length_append] at h2
  exact absurd h2.1.2 (by decide)

end NetSuiteMCP

namespace NetSuiteMCP

/--
**C3, counterexample.**  The claim states that in *both* compiler paths
a filter referencing a column absent from the column map is skipped and
never fatal.  In the structured path `getFiltersSearch` dereferences
`Columns[filter.Column]` with no existence check: with a column map
holding only `Name`, a filter on `Ghost` throws a `TypeError` instead
of being skipped, and no query is produced.
-/
theorem c3_counterexample :
    getFiltersSearch noDateFmt [("Name", { name := some "name", type := "string" })]
      [⟨"Ghost", "=", "x"⟩] = .error .typeErr := by
  rfl

/--
**C3, amended.**  Only the textual path skips unresolvable filter
column references: `getFiltersSQL` equals itself run on the filter list
with the unknown-column filters dropped, and always returns a fragment
(never throws).  The structured path is fatal instead: whenever the
filter list holds a parameter whose column the map does not know,
`getFiltersSearch` throws (a `TypeError` at that filter, or an
operator-translation error raised on an earlier filter).
-/
theorem c3_amended :
    (∀ (dateFmt : String → String → String) (Columns : List (String × SuiteQLCol))
        (fil : List FilterParam),
      getFiltersSQL dateFmt Columns fil =
        getFiltersSQL dateFmt Columns
          (fil.filter (fun f => (lookupCol Columns f.Column).isSome)) ∧
      ∃ s, getFiltersSQL dateFmt Columns fil = .ok s) ∧
    (∀ (dateFmt : String → String → String) (Columns : List (String × SuiteScriptCol))
        (fil : List FilterParam) (f : FilterParam),
      f ∈ fil → lookupCol Columns f.Column = none →
      ∃ e, getFiltersSearch dateFmt Columns fil = .error e) := by
  constructor
  · intro dateFmt Columns fil
    exact ⟨getFiltersSQLAux_skips dateFmt Columns fil "",
      getFiltersSQLAux_ok dateFmt Columns fil ""⟩
  · intro dateFmt Columns fil f hf hnone
    exact getFiltersSearchAux_unknown dateFmt Columns fil [] f hf hnone

/-- Witness for `c3_amended` at concrete inputs: a `Ghost` filter is
dropped by the textual path (the fragment is the empty one of the
remaining — empty — filter list) and throws in the structured path. -/
theorem c3_amended_witness :
    (getFiltersSQL noDateFmt c8Cols [⟨"Ghost", "=", "x"⟩] =
      getFiltersSQL noDateFmt c8Cols [] ∧
      ∃ s, getFiltersSQL noDateFmt c8Cols [⟨"Ghost", "=", "x"⟩] = .ok s) ∧
    ∃ e, getFiltersSearch noDateFmt [("Name", { name := some "name", type := "string" })]
      [⟨"Ghost", "=", "x"⟩] = .error e := by
  obtain ⟨h1, h2⟩ := c3_amended
  constructor
  · have := h1 noDateFmt c8Cols [⟨"Ghost", "=", "x"⟩]
    exact ⟨by rw [this.1]; rfl, this.2⟩
  · exact h2 noDateFmt [("Name", { name := some "name", type := "string" })]
      [⟨"Ghost", "=", "x"⟩] ⟨"Ghost", "=", "x"⟩ (List.mem_singleton.mpr rfl) rfl

/-- The resolved order pair of `formatSearchObj` (lines 603-608), as a
standalone function: `["", ""]` in count mode, the requested column
with `SortOrder || 'ASC'` when an order was requested, else the
default sort. -/
def searchOrderPair (params : NetSuiteParams) (defaultSort : DefaultSort) :
    String × String :=
  if params.CountOnly = some true then ("", "")
  else match params.OrderBy with
    | some ob => (ob.Column, if jsTruthyStr ob.SortOrder then ob.SortOrder.getD "" else "ASC")
    | none => (defaultSort.Column, defaultSort.SortOrder)

/-- What a successful `formatSearchObj` run pins down: `countOnly` is
always `false`, `maxResults` is 1 in count mode and the requested limit
(or 0) otherwise, and the column list is the filtered projection built
against the resolved order pair. -/
theorem formatSearchObj_ok_fields
    {dateFmt : String → String → String} {ty : String}
    {Columns : List (String × SuiteScriptCol)} {params : NetSuiteParams}
    {inbuilt : List FilterElem} {ds : DefaultSort}
    {settings : Option (List (String × String))} {r : SearchRestletParams}
    (h : formatSearchObj dateFmt ty Columns params inbuilt ds settings = .ok r) :
    r.countOnly = false ∧
    r.maxResults = (if params.CountOnly = some true then 1 else params.Limit.getD 0) ∧
    ∃ colOpts, buildSearchColsE (searchOrderPair params ds) Columns = .ok colOpts ∧
      r.columns = colOpts.filterMap id := by
  unfold formatSearchObj at h
  dsimp only at h
  rw [show (if params.CountOnly = some true then (("" : String), ("" : String))
      else match params.OrderBy with
        | some ob => (ob.Column, if jsTruthyStr ob.SortOrder then ob.SortOrder.getD "" else "ASC")
        | none => (ds.Column, ds.SortOrder)) = searchOrderPair params ds from rfl] at h
  split at h
  · exact Except.noConfusion h
  · rename_i colOpts hM
    split at h
    · exact Except.noConfusion h
    · injection h with h'
      subst h'
      exact ⟨rfl, rfl, colOpts, hM, rfl⟩

/-- The columns of a successful `formatSearchObj` run all come from the
per-column builder at the resolved order pair. -/
theorem formatSearchObj_columns_from
    {dateFmt : String → String → String} {ty : String}
    {Columns : List (String × SuiteScriptCol)} {params : NetSuiteParams}
    {inbuilt : List FilterElem} {ds : DefaultSort}
    {settings : Option (List (String × String))} {r : SearchRestletParams}
    (h : formatSearchObj dateFmt ty Columns params inbuilt ds settings = .ok r) :
    ∀ g ∈ r.columns, ∃ e ∈ Columns,
      buildSearchCol (searchOrderPair params ds) e.1 e.2 = .ok (some g) := by
  obtain ⟨-, -, colOpts, hM, hcols⟩ := formatSearchObj_ok_fields h
  intro g hg
  rw [hcols] at hg
  obtain ⟨a, ha, hag⟩ := List.mem_filterMap.mp hg
  obtain rfl : a = some g := hag
  exact buildSearchColsE_mem hM (some g) ha

/-- A missing key means every entry's key differs from it. -/
theorem lookupCol_none_keys {α : Type} {Columns : List (String × α)} {k : String}
    (h : lookupCol Columns k = none) : ∀ e ∈ Columns, e.1 ≠ k := by
  unfold lookupCol at h
  rw [Option.map_eq_none'] at h
  intro e he
  have := List.find?_eq_none.mp h e he
  simpa using this

end NetSuiteMCP

namespace NetSuiteMCP

/-- The SuiteScript column map of the C5/C6/C9 structured examples. -/
def c6Cols : List (String × SuiteScriptCol) :=
  [("Id", { name := some "internalid", type := "number" }),
    ("Name", { name := some "name", type := "string" })]

/-- The request of the C6 structured example: an order on a column the
map does not know. -/
def c6Params : NetSuiteParams := { OrderBy := some ⟨"Nonexistent", some "DESC"⟩ }

/-- The default sort of the structured examples. -/
def c6Ds : DefaultSort := ⟨"Name", "ASC"⟩

/-- An inert descriptor used as the `getD` fallback when reading a
compiler result known to be `.ok`. -/
def fallbackDesc : SearchRestletParams := ⟨"", [], [], false, 0, []⟩

/-- The SuiteScript column map of the C5 example. -/
def c5Cols : List (String × SuiteScriptCol) :=
  [("Name", { name := some "name", type := "string" })]

/--
**C5, counterexample.**  The claim says the structured compiler's output
descriptor has `countOnly` populated to `true` from the request's
count-only flag.  The source initializes `countOnly: false` and never
reassigns it: on a `CountOnly: true` request the descriptor still
carries `countOnly = false` (only `maxResults` is forced to 1).
-/
theorem c5_counterexample :
    Except.map (fun r => (r.countOnly, r.maxResults))
      (formatSearchObj noDateFmt "transaction" c5Cols { CountOnly := some true } []
        c6Ds none) = .ok (false, 1) := by
  rfl

/--
**C5, amended.**  In count mode the compiler forces `maxResults` to
exactly 1, and otherwise `maxResults` is the requested limit or 0; but
the descriptor's `countOnly` field is never populated from the request:
it is `false` on every successful run (of `formatSearchObj`, and still
after `searchRestlet`'s descriptor normalization) — count mode is
signalled to the caller only through the forced cap, and the count
result is read from the response's count field.
-/
theorem c5_amended :
    (∀ (dateFmt : String → String → String) (ty : String)
        (Columns : List (String × SuiteScriptCol)) (params : NetSuiteParams)
        (inbuilt : List FilterElem) (ds : DefaultSort)
        (settings : Option (List (String × String))) (r : SearchRestletParams),
      formatSearchObj dateFmt ty Columns params inbuilt ds settings = .ok r →
      r.countOnly = false ∧
      (params.CountOnly = some true → r.maxResults = 1) ∧
      (params.CountOnly ≠ some true → r.maxResults = params.Limit.getD 0)) ∧
    (∀ (dateFmt : String → String → String) (ty : String)
        (Columns : List (String × SuiteScriptCol)) (params : NetSuiteParams)
        (inbuilt : List FilterElem) (ds : DefaultSort)
        (settings : Option (List (String × String))) (r : SearchRestletParams),
      searchRestletDescriptor dateFmt ty Columns params inbuilt ds settings = .ok r →
      r.countOnly = false) := by
  constructor
  · intro dateFmt ty Columns params inbuilt ds settings r h
    obtain ⟨hco, hmax, -⟩ := formatSearchObj_ok_fields h
    refine ⟨hco, fun hc => ?_, fun hc => ?_⟩
    · rw [hmax, if_pos hc]
    · rw [hmax, if_neg hc]
  · intro dateFmt ty Columns params inbuilt ds settings r h
    unfold searchRestletDescriptor at h
    cases hP : formatSearchObj dateFmt ty Columns params inbuilt ds settings with
    | error e => rw [hP] at h; exact Except.noConfusion h
    | ok p =>
      rw [hP] at h
      dsimp only at h
      have hco := (formatSearchObj_ok_fields hP).1
      split at h
      all_goals try split at h
      all_goals first
        | exact Except.noConfusion h
        | (injection h with h'; subst h'; simp [hco])

/-- The concrete count-mode descriptor of the C5 example. -/
def c5Desc : SearchRestletParams :=
  (formatSearchObj noDateFmt "transaction" c5Cols { CountOnly := some true } []
    c6Ds none).toOption.getD fallbackDesc

/-- Witness for `c5_amended` at the concrete count-mode example. -/
theorem c5_amended_witness :
    formatSearchObj noDateFmt "transaction" c5Cols { CountOnly := some true } []
      c6Ds none = .ok c5Desc ∧
    c5Desc.countOnly = false ∧ c5Desc.maxResults = 1 := by
  have h : formatSearchObj noDateFmt "transaction" c5Cols { CountOnly := some true } []
      c6Ds none = .ok c5Desc := rfl
  obtain ⟨p1, -⟩ := c5_amended
  obtain ⟨hco, hmax, -⟩ :=
    p1 noDateFmt "transaction" c5Cols { CountOnly := some true } [] c6Ds none c5Desc h
  exact ⟨h, hco, hmax rfl⟩

/--
**C6, counterexample.**  The claim says that when the requested OrderBy
column is unknown, the structured compiler attaches the sort marker to
the caller's default sort column.  It does not: `formatSearchObj` uses
the requested column name with no column-map check, so no projected
column matches it and *no* sort marker is attached anywhere — on the
example (order on `Nonexistent`, default sort `Name ASC`) both emitted
columns carry `sort = none`.
-/
theorem c6_counterexample :
    Except.map (fun r => r.columns.map (fun g => g.sort))
      (formatSearchObj noDateFmt "transaction" c6Cols c6Params [] c6Ds none) =
      .ok [none, none] := by
  rfl

/--
**C6, amended.**  In non-count mode with an unknown requested OrderBy
column, only the *textual* compiler falls back to the caller-supplied
default sort (emitting `ORDER BY <defaultColumn> <defaultDirection>`
when the default column is in the map); the *structured* compiler
attaches no sort marker to any column at all (it falls back to the
default only when the request carries no OrderBy).
-/
theorem c6_amended :
    (∀ (Columns : List (String × SuiteQLCol)) (params : NetSuiteParams)
        (ds : DefaultSort) (ob : OrderByParam) (dcol : SuiteQLCol),
      params.CountOnly ≠ some true → params.OrderBy = some ob →
      lookupCol Columns ob.Column = none → lookupCol Columns ds.Column = some dcol →
      sqlOrderByClause Columns params ds = dcol.sql ++ " " ++ ds.SortOrder ∧
      sqlOrderBySubst Columns params ds =
        "ORDER BY " ++ (dcol.sql ++ " " ++ ds.SortOrder)) ∧
    (∀ (dateFmt : String → String → String) (ty : String)
        (Columns : List (String × SuiteScriptCol)) (params : NetSuiteParams)
        (inbuilt : List FilterElem) (ds : DefaultSort)
        (settings : Option (List (String × String))) (ob : OrderByParam)
        (r : SearchRestletParams),
      params.CountOnly ≠ some true → params.OrderBy = some ob →
      lookupCol Columns ob.Column = none →
      formatSearchObj dateFmt ty Columns params inbuilt ds settings = .ok r →
      ∀ g ∈ r.columns, g.sort = none) := by
  constructor
  · intro Columns params ds ob dcol hc hob hnone hsome
    have hcl : sqlOrderByClause Columns params ds = dcol.sql ++ " " ++ ds.SortOrder := by
      unfold sqlOrderByClause
      rw [if_neg hc, hob]
      dsimp only
      rw [hnone]
      dsimp only
      rw [hsome]
    refine ⟨hcl, ?_⟩
    unfold sqlOrderBySubst
    dsimp only
    rw [hcl, if_pos (append_space_ne_empty dcol.sql ds.SortOrder)]
  · intro dateFmt ty Columns params inbuilt ds settings ob r hc hob hnone h g hg
    obtain ⟨e, he, hbuild⟩ := formatSearchObj_columns_from h g hg
    have hkey : e.1 ≠ ob.Column := lookupCol_none_keys hnone e he
    have hpair : searchOrderPair params ds =
        (ob.Column, if jsTruthyStr ob.SortOrder then ob.SortOrder.getD "" else "ASC") := by
      unfold searchOrderPair
      rw [if_neg hc, hob]
    rw [hpair] at hbuild
    exact buildSearchCol_sort_none hkey hbuild

/-- The concrete descriptor of the C6 structured example. -/
def c6Desc : SearchRestletParams :=
  (formatSearchObj noDateFmt "transaction" c6Cols c6Params [] c6Ds
    none).toOption.getD fallbackDesc

/-- Witness for `c6_amended` at the concrete examples: the textual
compiler falls back to `ORDER BY a.Name ASC`, and no column of the
structured descriptor carries a sort marker. -/
theorem c6_amended_witness :
    sqlOrderBySubst c8Cols c6Params c6Ds = "ORDER BY a.Name ASC" ∧
    (∀ g ∈ c6Desc.columns, g.sort = none) := by
  obtain ⟨t, s⟩ := c6_amended
  constructor
  · have := (t c8Cols c6Params c6Ds ⟨"Nonexistent", some "DESC"⟩
      { sql := "a.Name", type := "string" } (by decide) rfl rfl rfl).2
    exact this.trans (by rfl)
  · intro g hg
    exact s noDateFmt "transaction" c6Cols c6Params [] c6Ds none
      ⟨"Nonexistent", some "DESC"⟩ c6Desc (by decide) rfl rfl rfl g hg

/--
**C9** (confirmed).  In count mode, regardless of all other parameters:
the textual compiler's resolved order body and `{OrderBy}` substitution
are both empty (no ORDER BY is emitted), the `{Columns}` substitution
is exactly the single count aggregate `COUNT(*) AS Count`, and the
row-limit directive is empty; the structured compiler resolves the
order pair to `["", ""]`, so (whenever the column map has no
empty-string key, as every real map does) no projected column carries a
sort marker.
-/
theorem c9_count_mode :
    (∀ (Columns : List (String × SuiteQLCol)) (params : NetSuiteParams)
        (ds : DefaultSort),
      params.CountOnly = some true →
      sqlOrderByClause Columns params ds = "" ∧
      sqlOrderBySubst Columns params ds = "" ∧
      sqlColumnsSubst Columns params = "COUNT(*) AS Count" ∧
      sqlLimitClause params = "") ∧
    (∀ (dateFmt : String → String → String) (ty : String)
        (Columns : List (String × SuiteScriptCol)) (params : NetSuiteParams)
        (inbuilt : List FilterElem) (ds : DefaultSort)
        (settings : Option (List (String × String))) (r : SearchRestletParams),
      params.CountOnly = some true → (∀ e ∈ Columns, e.1 ≠ "") →
      formatSearchObj dateFmt ty Columns params inbuilt ds settings = .ok r →
      ∀ g ∈ r.columns, g.sort = none) := by
  constructor
  · intro Columns params ds hc
    have hcl : sqlOrderByClause Columns params ds = "" := by
      unfold sqlOrderByClause; rw [if_pos hc]
    refine ⟨hcl, ?_, ?_, ?_⟩
    · unfold sqlOrderBySubst
      dsimp only
      rw [hcl, if_neg (fun hne => hne rfl)]
    · unfold sqlColumnsSubst; rw [if_pos hc]
    · unfold sqlLimitClause; rw [if_pos hc]
  · intro dateFmt ty Columns params inbuilt ds settings r hc hkeys h g hg
    obtain ⟨e, he, hbuild⟩ := formatSearchObj_columns_from h g hg
    have hpair : searchOrderPair params ds = ("", "") := by
      unfold searchOrderPair; rw [if_pos hc]
    rw [hpair] at hbuild
    exact buildSearchCol_sort_none (hkeys e he) hbuild

/-- The concrete count-mode descriptor of the C9 structured example. -/
def c9Desc : SearchRestletParams :=
  (formatSearchObj noDateFmt "transaction" c6Cols { CountOnly := some true } [] c6Ds
    none).toOption.getD fallbackDesc

/-- Witness for `c9_count_mode` at concrete count-mode inputs. -/
theorem c9_count_mode_witness :
    sqlOrderBySubst c8Cols { CountOnly := some true } c6Ds = "" ∧
    sqlColumnsSubst c8Cols { CountOnly := some true } = "COUNT(*) AS Count" ∧
    (∀ g ∈ c9Desc.columns, g.sort = none) := by
  obtain ⟨t, s⟩ := c9_count_mode
  obtain ⟨-, h2, h3, -⟩ := t c8Cols { CountOnly := some true } c6Ds rfl
  refine ⟨h2, h3, fun g hg => ?_⟩
  exact s noDateFmt "transaction" c6Cols { CountOnly := some true } [] c6Ds none c9Desc
    rfl (by decide) rfl g hg

/-! ## Paged fetch loop (`GetAccounts.register`, textual path) -/

/-- A page returned by the textual-query executor (the result shape of
`NetSuiteHelper.executeSuiteQL`). -/
structure SuiteQLPage where
  totalCount : ℕ := 0
  items : List (List (String × JSValue)) := []
  hasMore : Bool := false
  offset : ℕ := 0
  count : ℕ := 0
deriving Repr, DecidableEq

/--
The non-count-mode pagination loop of `GetAccounts.register`
(`src/unnamed/part_000`, lines 110-144): starting at offset 0, call the
executor, normalize and accumulate the page's rows with `transform`,
and while the response signals more data advance the offset to
`data.offset + data.count` and repeat.  (The count-only early return
inside the loop is the other mode; the fixed 100 ms inter-page delay
has no effect on the data flow.)  The executor is the loop's paging
oracle, abstracted as a function from requested offset to page; the
source loop has no iteration cap, so `fuel` bounds the embedded
recursion and `none` marks exhaustion.  The result carries the list of
requested offsets alongside the accumulated normalized rows.
-/
def pagedFetch (fmtToISO : String → String → String)
    (Columns : List (String × TransformCol)) (executor : ℕ → SuiteQLPage) :
    ℕ → ℕ → Option (List ℕ × List (List (String × JSValue)))
  | 0, _ => none
  | fuel + 1, dataOffset =>
    let data := executor dataOffset
    let output := transform fmtToISO data.items Columns
    if data.hasMore then
      match pagedFetch fmtToISO Columns executor fuel (data.offset + data.count) with
      | some (offs, rows) => some (dataOffset :: offs, output ++ rows)
      | none => none
    else
      some ([dataOffset], output)

/-- One unfolding step of the pagination loop. -/
theorem pagedFetch_succ (fmtToISO : String → String → String)
    (Columns : List (String × TransformCol)) (executor : ℕ → SuiteQLPage)
    (fuel dataOffset : ℕ) :
    pagedFetch fmtToISO Columns executor (fuel + 1) dataOffset =
      (let data := executor dataOffset
       let output := transform fmtToISO data.items Columns
       if data.hasMore then
         match pagedFetch fmtToISO Columns executor fuel (data.offset + data.count) with
         | some (offs, rows) => some (dataOffset :: offs, output ++ rows)
         | none => none
       else
         some ([dataOffset], output)) := rfl

/--
**C10** (confirmed).  Against any executor that reports `hasMore` on
the first two calls and not on the third, the loop issues exactly three
calls — the first at offset 0, each subsequent offset equal to the
previous response's offset plus its row count — and its result is the
concatenation of the three pages' normalized rows in request order,
independently of any remaining recursion budget.  When each response
echoes its request offset and the first two pages are non-empty, the
three requested offsets are strictly increasing.
-/
theorem c10_paged_fetch (fmtToISO : String → String → String)
    (Columns : List (String × TransformCol)) (executor : ℕ → SuiteQLPage)
    (r0 r1 r2 : SuiteQLPage) (k : ℕ)
    (h0 : executor 0 = r0) (hm0 : r0.hasMore = true)
    (h1 : executor (r0.offset + r0.count) = r1) (hm1 : r1.hasMore = true)
    (h2 : executor (r1.offset + r1.count) = r2) (hm2 : r2.hasMore = false) :
    pagedFetch fmtToISO Columns executor (k + 1 + 1 + 1) 0 =
      some ([0, r0.offset + r0.count, r1.offset + r1.count],
        transform fmtToISO r0.items Columns ++
          (transform fmtToISO r1.items Columns ++ transform fmtToISO r2.items Columns)) ∧
    (r0.offset = 0 → r1.offset = r0.offset + r0.count → 0 < r0.count → 0 < r1.count →
      0 < r0.offset + r0.count ∧ r0.offset + r0.count < r1.offset + r1.count) := by
  constructor
  · rw [pagedFetch_succ]
    try dsimp only
    rw [h0, hm0, if_pos rfl, pagedFetch_succ]
    try dsimp only
    rw [h1, hm1, if_pos rfl, pagedFetch_succ]
    try dsimp only
    rw [h2, hm2]
    try dsimp only
    rw [if_neg (fun hx => Bool.false_ne_true hx)]
  · intro he0 he1 hc0 hc1
    omega

/-- The column map of the C10 stub run. -/
def c10Cols : List (String × TransformCol) := [("A", { type := "string" })]

/-- A stub executor: `hasMore` on the pages served at offsets 0 and 5
(each covering five rows), final page at offset 10. -/
def c10Executor : ℕ → SuiteQLPage :=
  fun off =>
    if off = 0 then ⟨0, [[("A", JSValue.vstr "r0")]], true, 0, 5⟩
    else if off = 5 then ⟨0, [[("A", JSValue.vstr "r1")]], true, 5, 5⟩
    else ⟨0, [[("A", JSValue.vstr "r2")]], false, 10, 0⟩

/-- Witness for `c10_paged_fetch` at the concrete stub: three calls at
offsets 0, 5, 10, rows concatenated in order, offsets strictly
increasing. -/
theorem c10_paged_fetch_witness :
    pagedFetch noDateFmt c10Cols c10Executor 3 0 =
      some ([0, 5, 10],
        [[("A", JSValue.vstr "r0")], [("A", JSValue.vstr "r1")], [("A", JSValue.vstr "r2")]]) ∧
    ((0 : ℕ) < 5 ∧ (5 : ℕ) < 10) := by
  obtain ⟨hrun, hinc⟩ := c10_paged_fetch noDateFmt c10Cols c10Executor
    ⟨0, [[("A", JSValue.vstr "r0")]], true, 0, 5⟩
    ⟨0, [[("A", JSValue.vstr "r1")]], true, 5, 5⟩
    ⟨0, [[("A", JSValue.vstr "r2")]], false, 10, 0⟩
    0 rfl rfl rfl rfl rfl rfl
  exact ⟨hrun.trans (by rfl), hinc rfl rfl (by decide) (by decide)⟩

end NetSuiteMCP
